import Mathlib

/-!
Verification of the brute-force rate-limiting subsystem of a login service.

The development shallowly embeds two TypeScript classes:
  - `RateLimitService` (constants `MAX_ATTEMPTS`/`WINDOW_MINUTES`, operations
    `incrementAttempt`, `getCurrentAttempts`, `checkRateLimit`);
  - `AuthService` (`login`, `handleFailedLogin`).
Timestamps are modelled as `Int` milliseconds since the epoch (JavaScript
`Date.getTime()` values).  External storage interactions (a Supabase table
read and an RPC call) are modelled by explicit result values
(`ReadResult`, `RpcResult`) passed in as parameters, so every function is a
pure, executable Lean definition.  A thrown `AuthError` is modelled as a
`some`/`Except.error` value; JavaScript `try`/`catch` becomes a `match` on an
`Except`.
-/

/-- Error codes.  The rate-limit service uses the string literals
`auth/too-many-requests` and `auth/attempts-remaining`; `AuthService` uses
members of `AUTH_ERROR_CODES` (a module outside the sources, referenced as
`INVALID_CREDENTIALS` and `SERVER_ERROR`).  All four are modelled as distinct
constructors. -/
inductive ErrorCode where
  | invalidCredentials
  | serverError
  | tooManyRequests
  | attemptsRemaining
deriving DecidableEq, Repr

/-- `AuthError` carries a user-facing message and a code. -/
structure AuthError where
  message : String
  code : ErrorCode
deriving DecidableEq, Repr

/-- One stored record of the `failed_attempts` table, as declared in
`src/lib/types/rateLimit.ts` (`RateLimitAttempt`): `attemptCount`,
`lastReset`, `lastAttempt` (timestamps in ms). -/
structure RateLimitAttempt where
  attemptCount : Nat
  lastReset : Int
  lastAttempt : Int
deriving DecidableEq, Repr

/-- Outcome of the storage read performed by `getCurrentAttempts`
(`supabase.from('failed_attempts')...single()`): the query can return an
error value, the call can throw, the row can be missing, or a record is
found. -/
inductive ReadResult where
  | err
  | thrown
  | notFound
  | found (rec : RateLimitAttempt)
deriving DecidableEq, Repr

/-- Outcome of the `increment_failed_attempts` RPC used by
`incrementAttempt`: an error value, a thrown exception, or a returned
`data` (possibly null, hence `Option Nat`). -/
inductive RpcResult where
  | err
  | thrown
  | ok (data : Option Nat)
deriving DecidableEq, Repr

namespace RateLimitService

/-- `private static readonly MAX_ATTEMPTS = 5`. -/
def MAX_ATTEMPTS : Nat := 5

/-- `private static readonly WINDOW_MINUTES = 15`. -/
def WINDOW_MINUTES : Nat := 15

/-- The window duration in milliseconds: `WINDOW_MINUTES * 60 * 1000`. -/
def windowMs : Int := (WINDOW_MINUTES : Int) * 60 * 1000

/-- Body of the `try` block of `incrementAttempt`.  `Except.error` is a
thrown JavaScript exception escaping the block.  The pair's second component
records whether a diagnostic was written with `console.error`.
`RpcResult.err` hits `if (error) ... return 0` (with a log);
`RpcResult.ok data` returns `data || 0`. -/
def incrementAttemptTry : RpcResult → Except Unit (Nat × Bool)
  | RpcResult.thrown => Except.error ()
  | RpcResult.err => Except.ok (0, true)
  | RpcResult.ok data => Except.ok (data.getD 0, false)

/-- `incrementAttempt`: the `try` body with its `catch`, which logs and
returns 0.  Total: no exception reaches the caller.  Returns the new attempt
count together with the logged-a-failure flag. -/
def incrementAttempt (rpc : RpcResult) : Nat × Bool :=
  match incrementAttemptTry rpc with
  | Except.error _ => (0, true)
  | Except.ok r => r

/-- `getCurrentAttempts`: on a read error or a thrown storage exception
return 0 (fail-open); on a missing row return 0; otherwise apply the lazy
window-expiry logic: `windowExpiry = lastReset + WINDOW_MINUTES*60*1000`,
and if `now > windowExpiry` the count reads as 0, else `attempt_count`. -/
def getCurrentAttempts (r : ReadResult) (now : Int) : Nat :=
  match r with
  | ReadResult.err => 0
  | ReadResult.thrown => 0
  | ReadResult.notFound => 0
  | ReadResult.found rec =>
    let windowExpiry := rec.lastReset + windowMs
    if now > windowExpiry then 0 else rec.attemptCount

/-- The `AuthError` thrown by `checkRateLimit` when `attempts >= MAX_ATTEMPTS`. -/
def tooManyAttemptsError : AuthError :=
  { message := "Too many failed attempts. Please try again later."
    code := ErrorCode.tooManyRequests }

/-- The `AuthError` thrown by `checkRateLimit` when few attempts remain; the
message interpolates the remaining count. -/
def attemptsRemainingError (remaining : Nat) : AuthError :=
  { message := toString remaining ++ " login attempts remaining before temporary lockout."
    code := ErrorCode.attemptsRemaining }

/-- `checkRateLimit`: reads the current attempts; throws
`tooManyAttemptsError` when `attempts >= MAX_ATTEMPTS`; otherwise computes
`remainingAttempts = MAX_ATTEMPTS - attempts` and throws
`attemptsRemainingError remainingAttempts` when `remainingAttempts <= 2`;
otherwise returns normally (`none`). -/
def checkRateLimit (r : ReadResult) (now : Int) : Option AuthError :=
  let attempts := getCurrentAttempts r now
  if attempts ≥ MAX_ATTEMPTS then
    some tooManyAttemptsError
  else
    let remainingAttempts := MAX_ATTEMPTS - attempts
    if remainingAttempts ≤ 2 then
      some (attemptsRemainingError remainingAttempts)
    else
      none

end RateLimitService

/-- Composite rate-limit key `(ip_address, identifier)` from
`src/lib/types/rateLimit.ts` (`RateLimitKey`). -/
structure RateLimitKey where
  ip : String
  identifier : String
deriving DecidableEq, Repr

/-- The external `failed_attempts` store, keyed by `(ip, identifier)`. -/
def Store : Type := List (RateLimitKey × RateLimitAttempt)

/-- Read the record for a key from the store (the `select ... .single()`
query of `getCurrentAttempts`). -/
def readRecord (s : Store) (k : RateLimitKey) : Option RateLimitAttempt :=
  match s.find? (fun p => decide (p.1 = k)) with
  | none => none
  | some p => some p.2

/-- A successful storage read as a `ReadResult`: a missing row is
`notFound`, a present row is `found`. -/
def toReadResult : Option RateLimitAttempt → ReadResult
  | none => ReadResult.notFound
  | some rec => ReadResult.found rec

namespace RateLimitService

/-- `checkRateLimit` run against the store: it performs only the read and
returns the store it was given — the source method contains no insert,
update, delete or RPC call. -/
def checkRateLimitS (s : Store) (k : RateLimitKey) (now : Int) :
    Option AuthError × Store :=
  (checkRateLimit (toReadResult (readRecord s k)) now, s)

/-- `n` successive `checkRateLimit` calls against the store, each acting on
the store left by the previous one. -/
def iterCheckRateLimit : Nat → Store → RateLimitKey → Int → Store
  | 0, s, _, _ => s
  | n + 1, s, k, now => iterCheckRateLimit n (checkRateLimitS s k now).2 k now

end RateLimitService

namespace AuthService

/-- The generic credential-failure error thrown by `login`
(`'Invalid email or password'`, `AUTH_ERROR_CODES.INVALID_CREDENTIALS`). -/
def genericInvalidCredentials : AuthError :=
  { message := "Invalid email or password"
    code := ErrorCode.invalidCredentials }

/-- The hard-lockout error raised by `handleFailedLogin` when no attempts
remain. -/
def lockoutError : AuthError :=
  { message := "Too many failed login attempts. Please try again after 15 minutes."
    code := ErrorCode.invalidCredentials }

/-- The warning error raised by `handleFailedLogin`; the message
interpolates the remaining count. -/
def remainingWarningError (remaining : Int) : AuthError :=
  { message := "Invalid credentials. " ++ toString remaining ++
      " attempts remaining before temporary lockout."
    code := ErrorCode.invalidCredentials }

/-- `handleFailedLogin`: calls `incrementAttempt`, computes
`remainingAttempts = 5 - attempts` (JavaScript number arithmetic, hence
`Int`), and throws the lockout error when `remainingAttempts <= 0`, the
warning when `remainingAttempts <= 2`, else returns normally.  Its own
`catch` rethrows `AuthError`s unchanged, so the thrown error (if any) is
the returned `some`. -/
def handleFailedLogin (rpc : RpcResult) : Option AuthError :=
  let attempts := (RateLimitService.incrementAttempt rpc).1
  let remainingAttempts : Int := 5 - (attempts : Int)
  if remainingAttempts ≤ 0 then
    some lockoutError
  else if remainingAttempts ≤ 2 then
    some (remainingWarningError remainingAttempts)
  else
    none

/-- The external inputs `login` depends on: the rate-limit storage read and
current time (consumed by `checkRateLimit`), whether the user row was found,
whether the password hash matched, and the RPC outcome consumed by
`handleFailedLogin` on a failed check. -/
structure LoginEnv where
  readResult : ReadResult
  now : Int
  userFound : Bool
  passwordMatches : Bool
  rpcResult : RpcResult
deriving Repr

/-- `login`.  The first component is the result (a thrown `AuthError` or
success); the second records whether credential verification (the user
lookup and password comparison against the credential store) was reached.
`checkRateLimit` is awaited first inside the `try`; if it throws, the
`catch` rethrows the `AuthError` and the credential store is never touched.
On a failed lookup or password mismatch, `handleFailedLogin` runs; if it
throws, that error propagates, otherwise the generic invalid-credentials
error is thrown. -/
def login (env : LoginEnv) : Except AuthError Unit × Bool :=
  match RateLimitService.checkRateLimit env.readResult env.now with
  | some e => (Except.error e, false)
  | none =>
    if env.userFound = false then
      match handleFailedLogin env.rpcResult with
      | some e => (Except.error e, true)
      | none => (Except.error genericInvalidCredentials, true)
    else if env.passwordMatches = false then
      match handleFailedLogin env.rpcResult with
      | some e => (Except.error e, true)
      | none => (Except.error genericInvalidCredentials, true)
    else
      (Except.ok (), true)

end AuthService

open RateLimitService AuthService

/-- The warning error and the hard-block error are distinguishable outcomes
(their codes differ). -/
theorem attemptsRemainingError_ne_tooMany (r : Nat) :
    attemptsRemainingError r ≠ tooManyAttemptsError := by
  simp [attemptsRemainingError, tooManyAttemptsError]

/-- C2: `checkRateLimit` produces the `TooManyAttempts` outcome exactly when
the effective attempt count is at least `MAX_ATTEMPTS` (5); below the
threshold it never produces that outcome. -/
theorem checkRateLimit_tooMany_iff (r : ReadResult) (now : Int) :
    checkRateLimit r now = some tooManyAttemptsError ↔
      MAX_ATTEMPTS ≤ getCurrentAttempts r now := by
  constructor
  · intro h
    simp only [checkRateLimit] at h
    split at h
    · assumption
    · split at h
      · exact absurd (Option.some.inj h) (attemptsRemainingError_ne_tooMany _)
      · exact absurd h (by simp)
  · intro h
    simp only [checkRateLimit]
    rw [if_pos h]

/-- C3: for every stored record and every current time, the effective
attempt count is 0 when `now` is strictly past `lastReset` plus the window
duration, and the stored `attemptCount` otherwise. -/
theorem getCurrentAttempts_window_expiry (rec : RateLimitAttempt) (now : Int) :
    getCurrentAttempts (ReadResult.found rec) now =
      if now > rec.lastReset + windowMs then 0 else rec.attemptCount := rfl

/-- C4: for every stored record, if `lastAttempt` is older than the window
relative to `now`, the effective attempt count is 0 regardless of the
stored `attemptCount`.  The source tests `lastReset`, so the data-model
invariant `lastReset <= lastAttempt` (the window starts at or before the
most recent failure — every record the increment operation writes satisfies
it) is taken as a hypothesis. -/
theorem getCurrentAttempts_lastAttempt_expired (rec : RateLimitAttempt) (now : Int)
    (hinv : rec.lastReset ≤ rec.lastAttempt)
    (h : rec.lastAttempt + windowMs < now) :
    getCurrentAttempts (ReadResult.found rec) now = 0 := by
  have hr : now > rec.lastReset + windowMs := by linarith
  simp only [getCurrentAttempts]
  rw [if_pos hr]

/-- Witness for C4 at the record `attemptCount = 7`, `lastReset = 0`,
`lastAttempt = 0` and `now` one million ms (past the 900000 ms window). -/
theorem getCurrentAttempts_lastAttempt_expired_witness :
    getCurrentAttempts (ReadResult.found ⟨7, 0, 0⟩) 1000000 = 0 :=
  getCurrentAttempts_lastAttempt_expired ⟨7, 0, 0⟩ 1000000 (by decide) (by decide)

/-- C5: when the storage RPC fails — it returns an error value or throws —
`incrementAttempt` does not propagate an exception: it returns 0 and logs
the failure (the Boolean flag). -/
theorem incrementAttempt_failOpen (rpc : RpcResult)
    (h : rpc = RpcResult.err ∨ rpc = RpcResult.thrown) :
    incrementAttempt rpc = (0, true) := by
  rcases h with h | h <;> subst h <;> rfl

/-- Witness for C5 at the error-result outcome. -/
theorem incrementAttempt_failOpen_witness :
    incrementAttempt RpcResult.err = (0, true) :=
  incrementAttempt_failOpen RpcResult.err (Or.inl rfl)

/-- C6: when the storage read underlying `checkRateLimit` fails (an error
result or a thrown exception), the effective count reads as 0 and
`checkRateLimit` returns normally — no warning, no block, no exception. -/
theorem checkRateLimit_read_failure_failOpen (now : Int) :
    getCurrentAttempts ReadResult.err now = 0 ∧
      checkRateLimit ReadResult.err now = none ∧
      getCurrentAttempts ReadResult.thrown now = 0 ∧
      checkRateLimit ReadResult.thrown now = none :=
  ⟨rfl, rfl, rfl, rfl⟩

/-- C7: `checkRateLimit` is read-only — any number of successive calls
against the store, with no intervening `incrementAttempt`, leaves the store
(hence every stored record's `attemptCount`, `lastReset` and `lastAttempt`)
unchanged. -/
theorem checkRateLimit_readOnly (n : Nat) (s : Store) (k : RateLimitKey) (now : Int) :
    iterCheckRateLimit n s k now = s ∧
      ∀ k2, readRecord (iterCheckRateLimit n s k now) k2 = readRecord s k2 := by
  have hs : iterCheckRateLimit n s k now = s := by
    induction n with
    | zero => rfl
    | succ m ih => exact ih
  exact ⟨hs, fun k2 => by rw [hs]⟩

/-- C8: at an effective count of exactly `MAX_ATTEMPTS - 1` (4),
`checkRateLimit` produces the warning outcome with remaining count 1, not
the hard block. -/
theorem checkRateLimit_warning_at_four (r : ReadResult) (now : Int)
    (h : getCurrentAttempts r now = 4) :
    checkRateLimit r now = some (attemptsRemainingError 1) ∧
      checkRateLimit r now ≠ some tooManyAttemptsError := by
  have h1 : checkRateLimit r now = some (attemptsRemainingError 1) := by
    simp only [checkRateLimit, h]
    rfl
  refine ⟨h1, ?_⟩
  rw [h1]
  intro hc
  exact attemptsRemainingError_ne_tooMany 1 (Option.some.inj hc)

/-- Witness for C8 at a stored record with `attemptCount = 4` inside the
window. -/
theorem checkRateLimit_warning_at_four_witness :
    checkRateLimit (ReadResult.found ⟨4, 0, 0⟩) 0 = some (attemptsRemainingError 1) ∧
      checkRateLimit (ReadResult.found ⟨4, 0, 0⟩) 0 ≠ some tooManyAttemptsError :=
  checkRateLimit_warning_at_four (ReadResult.found ⟨4, 0, 0⟩) 0 (by decide)

/-- C9: after `incrementAttempt` returns `attempts`, `handleFailedLogin`
computes `remaining = 5 - attempts` and produces exactly one of three
outcomes: `remaining <= 0` raises the hard-lockout error, whose message
states the configured window duration; `0 < remaining <= 2` raises the
warning error, whose message contains the exact remaining count; and
`remaining > 2` raises nothing. -/
theorem handleFailedLogin_trichotomy (rpc : RpcResult) :
    (5 - ((RateLimitService.incrementAttempt rpc).1 : Int) ≤ 0 ∧
        handleFailedLogin rpc = some lockoutError ∧
        lockoutError.message =
          "Too many failed login attempts. Please try again after " ++
            toString WINDOW_MINUTES ++ " minutes.") ∨
      (0 < 5 - ((RateLimitService.incrementAttempt rpc).1 : Int) ∧
        5 - ((RateLimitService.incrementAttempt rpc).1 : Int) ≤ 2 ∧
        handleFailedLogin rpc =
          some (remainingWarningError (5 - ((RateLimitService.incrementAttempt rpc).1 : Int))) ∧
        (remainingWarningError (5 - ((RateLimitService.incrementAttempt rpc).1 : Int))).message =
          "Invalid credentials. " ++
            toString (5 - ((RateLimitService.incrementAttempt rpc).1 : Int)) ++
            " attempts remaining before temporary lockout.") ∨
      (2 < 5 - ((RateLimitService.incrementAttempt rpc).1 : Int) ∧
        handleFailedLogin rpc = none) := by
  by_cases h0 : 5 - ((RateLimitService.incrementAttempt rpc).1 : Int) ≤ 0
  · exact Or.inl ⟨h0, by simp only [handleFailedLogin]; rw [if_pos h0], rfl⟩
  · by_cases h2 : 5 - ((RateLimitService.incrementAttempt rpc).1 : Int) ≤ 2
    · refine Or.inr (Or.inl ⟨by omega, h2, ?_, rfl⟩)
      simp only [handleFailedLogin]
      rw [if_neg h0, if_pos h2]
    · refine Or.inr (Or.inr ⟨by omega, ?_⟩)
      simp only [handleFailedLogin]
      rw [if_neg h0, if_neg h2]

/-- C1 counterexample: at a stored count of 3 inside the window
(`5 - 3 = 2 <= 2`) `checkRateLimit` raises the remaining-attempts warning,
yet `login` — even with the user found and the password matching —
propagates that error and never reaches credential verification (the flag
is `false`), refuting the claim that the caller still proceeds with
credential verification after receiving the warning. -/
theorem login_warning_blocks_credentials :
    checkRateLimit (ReadResult.found ⟨3, 0, 0⟩) 0 = some (attemptsRemainingError 2) ∧
      login ⟨ReadResult.found ⟨3, 0, 0⟩, 0, true, true, RpcResult.ok (some 4)⟩ =
        (Except.error (attemptsRemainingError 2), false) :=
  ⟨rfl, rfl⟩

/-- C1 (amended): for every key whose effective attempt count `c` satisfies
`c < MAX_ATTEMPTS` and `MAX_ATTEMPTS - c <= 2`, `checkRateLimit` fails with
the remaining-attempts warning carrying `MAX_ATTEMPTS - c`; however the
failure is not soft for the caller: `AuthService.login` propagates the
error and does not proceed with credential verification. -/
theorem checkRateLimit_warning_aborts_login (env : LoginEnv)
    (h1 : getCurrentAttempts env.readResult env.now < MAX_ATTEMPTS)
    (h2 : MAX_ATTEMPTS - getCurrentAttempts env.readResult env.now ≤ 2) :
    checkRateLimit env.readResult env.now =
        some (attemptsRemainingError
          (MAX_ATTEMPTS - getCurrentAttempts env.readResult env.now)) ∧
      login env =
        (Except.error (attemptsRemainingError
          (MAX_ATTEMPTS - getCurrentAttempts env.readResult env.now)), false) := by
  have hc : checkRateLimit env.readResult env.now =
      some (attemptsRemainingError
        (MAX_ATTEMPTS - getCurrentAttempts env.readResult env.now)) := by
    simp only [checkRateLimit]
    rw [if_neg (Nat.not_le.mpr h1), if_pos h2]
  refine ⟨hc, ?_⟩
  simp only [login]
  rw [hc]

/-- Witness for the amended C1 at a stored count of 3 inside the window. -/
theorem checkRateLimit_warning_aborts_login_witness :
    checkRateLimit (ReadResult.found ⟨3, 0, 0⟩) 0 = some (attemptsRemainingError 2) ∧
      login ⟨ReadResult.found ⟨3, 0, 0⟩, 0, false, true, RpcResult.ok (some 4)⟩ =
        (Except.error (attemptsRemainingError 2), false) :=
  checkRateLimit_warning_aborts_login
    ⟨ReadResult.found ⟨3, 0, 0⟩, 0, false, true, RpcResult.ok (some 4)⟩
    (by decide) (by decide)

/-- C10: whenever `incrementAttempt` returns its storage-failure value 0,
`handleFailedLogin` computes `remaining = 5` and raises neither the lockout
error nor the remaining-attempts warning; during a counter-store outage
(the rate-limit read failing as well) a failed login therefore surfaces
only the generic invalid-credentials error, never a lockout message. -/
theorem outage_failed_login_generic (env : LoginEnv)
    (h0 : (RateLimitService.incrementAttempt env.rpcResult).1 = 0)
    (hread : env.readResult = ReadResult.err)
    (hfail : env.userFound = false ∨ env.passwordMatches = false) :
    handleFailedLogin env.rpcResult = none ∧
      login env = (Except.error genericInvalidCredentials, true) := by
  have hh : handleFailedLogin env.rpcResult = none := by
    simp only [handleFailedLogin, h0]
    rfl
  refine ⟨hh, ?_⟩
  simp only [login, hread]
  have hc : checkRateLimit ReadResult.err env.now = none := rfl
  rw [hc]
  rcases hfail with hf | hf
  · simp [hf, hh]
  · cases hu : env.userFound with
    | false => simp [hu, hh]
    | true => simp [hu, hf, hh]

/-- Witness for C10: read outage, RPC outage, user not found. -/
theorem outage_failed_login_generic_witness :
    handleFailedLogin RpcResult.err = none ∧
      login ⟨ReadResult.err, 0, false, true, RpcResult.err⟩ =
        (Except.error genericInvalidCredentials, true) :=
  outage_failed_login_generic ⟨ReadResult.err, 0, false, true, RpcResult.err⟩
    (by decide) rfl (Or.inl rfl)
